import Mathlib

/-!
# Verification of the super-rodio shared playback engine

A shallow embedding of the player core (`src/song.rs`, `src/asset.rs`,
`src/shared_player.rs`): the data model, the thread-safe control surface and
the worker-loop state machine of `play()`.

Modelling choices, stated once:

* The Rust code runs every operation on a freshly spawned thread guarded by one
  `RwLock`.  The embedding sequentialises each lock-protected critical section
  into a pure state transformer on a `World`.  Concurrent writers that may land
  between the worker's critical sections (e.g. a mode switch issued while the
  worker blocks inside `sink.sleep_until_end()` under a read lock) are modelled
  as an explicit injection function applied at the point where that read lock
  is released, before the worker's next write acquisition.
* `rodio` backend objects (`OutputStream`/`Sink`) mutate through shared
  references (interior mutability); `sink.pause()`/`sink.stop()` do not write
  any field of `PlayerAsset`.  The embedding therefore splits the state into
  the lock-guarded `PlayerAsset` and a backend-side `SinkCtl` record holding
  the current sink's pause/stop/volume flags.
* The sink handle stored in `PlayerAsset.sink` is identified by the pair
  (tag of the installed `gen_out` factory, creation serial number): the
  backend counter `nextSerial` counts sink creations, so "created exactly
  once" is the statement that one `play` increments it by exactly 1.
* `File::open(..).unwrap()` / `Decoder::new(..).unwrap()` /
  `source.total_duration().unwrap_or_default()` are abstracted into one
  environment function `resolve : String → Option Nat`: `none` means the
  open/decode `unwrap` panics (the worker thread dies, leaving the shared
  state exactly as it was at the panic point), `some d` means a playable
  source whose effective total duration (after `unwrap_or_default`) is `d`
  nanoseconds.  `Duration` is modelled as `Nat`.
* `f32` volume carries no arithmetic in this code; it is modelled as `Rat`
  with the source's default `0.5`.
-/

namespace SuperRodio

/-- `Song` from `src/song.rs`: display name plus resource locator (`path`). -/
structure Song where
  name : String
  path : String
deriving DecidableEq, Repr

/-- `SongState` from `src/song.rs`: `NONE | PLAY | PAUSE | STOP`. -/
inductive SongState where
  | NONE
  | PLAY
  | PAUSE
  | STOP
deriving DecidableEq, Repr

instance : Inhabited SongState := ⟨SongState.NONE⟩

/-- `ActiveSong` from `src/song.rs`; `Duration` modelled as `Nat`. -/
structure ActiveSong where
  song : Option Song
  state : SongState
  progress : Nat
  duration : Nat
deriving DecidableEq, Repr

/-- `Default` for `ActiveSong`: all fields at their defaults. -/
def ActiveSong.default : ActiveSong :=
  { song := none, state := SongState.NONE, progress := 0, duration := 0 }

/-- `ActiveSong::from(song, duration)` from `src/song.rs`. -/
def ActiveSong.fromSong (s : Song) (d : Nat) : ActiveSong :=
  { song := some s, state := SongState.NONE, progress := 0, duration := d }

/-- `PlaybackMode` from `src/asset.rs`: `NORMAL` (default) or `AUTO`. -/
inductive PlaybackMode where
  | NORMAL
  | AUTO
deriving DecidableEq, Repr

/-- Modelled from the spec: the external `limited_queue::LimitedQueue`
collaborator (not part of src/), specified at its boundary in §2/§6 of the
spec: a FIFO with fixed capacity; push beyond capacity evicts the oldest
entry; pop removes and returns the oldest entry or signals empty; iteration
is oldest-first.  `items` lists entries oldest first. -/
structure LimitedQueue (α : Type) where
  capacity : Nat
  items : List α
deriving DecidableEq, Repr

/-- `LimitedQueue::with_capacity`: an empty queue of the given capacity. -/
def LimitedQueue.withCapacity (α : Type) (c : Nat) : LimitedQueue α :=
  { capacity := c, items := [] }

/-- `push`: append at the back; when full, evict the oldest entry first. -/
def LimitedQueue.push {α : Type} (q : LimitedQueue α) (a : α) : LimitedQueue α :=
  if q.items.length < q.capacity then
    { q with items := q.items ++ [a] }
  else
    { q with items := q.items.tail ++ [a] }

/-- `pop`: remove and return the oldest entry, or `none` when empty. -/
def LimitedQueue.pop {α : Type} (q : LimitedQueue α) : LimitedQueue α × Option α :=
  match q.items with
  | [] => (q, none)
  | a :: rest => ({ q with items := rest }, some a)

/-- `clear`: empty the queue, keeping its capacity. -/
def LimitedQueue.clear {α : Type} (q : LimitedQueue α) : LimitedQueue α :=
  { q with items := [] }

/-- Backend-side state of the (at most one) live `Sink`: rodio mutates these
through shared references, never through `PlayerAsset`. -/
structure SinkCtl where
  paused : Bool
  stopped : Bool
  volume : Rat
deriving DecidableEq, Repr

/-- A fresh sink: not paused, not stopped, rodio's default volume 1. -/
def SinkCtl.fresh : SinkCtl :=
  { paused := false, stopped := false, volume := 1 }

/-- `PlayerAsset` from `src/asset.rs`.  `sink` holds the handle's identity
(factory tag, creation serial); `gen_out` is the tag of the installed output
factory (the closure itself is opaque, only its identity is observable). -/
structure PlayerAsset where
  sink : Option (Nat × Nat)
  waiting_q : LimitedQueue Song
  current : ActiveSong
  played_q : LimitedQueue Song
  volume : Rat
  mode : PlaybackMode
  gen_out : Nat
deriving DecidableEq, Repr

/-- `PlayerAsset::make` from `src/asset.rs`: capacity-1000 queues, default
active song, volume `0.5`, `NORMAL` mode, the default device factory (tag 0). -/
def PlayerAsset.make : PlayerAsset :=
  { sink := none
    waiting_q := LimitedQueue.withCapacity Song 1000
    current := ActiveSong.default
    played_q := LimitedQueue.withCapacity Song 1000
    volume := 1 / 2
    mode := PlaybackMode.NORMAL
    gen_out := 0 }

/-- The whole observable state: the lock-guarded `PlayerAsset`, the
backend-side control state of the current sink, and the backend's counter of
sink creations. -/
structure World where
  player : PlayerAsset
  ctl : SinkCtl
  nextSerial : Nat
deriving DecidableEq, Repr

/-- `SharedPlayer::make`: a fresh player and an untouched backend. -/
def World.make : World :=
  { player := PlayerAsset.make, ctl := SinkCtl.fresh, nextSerial := 0 }

/-- `add` (`src/shared_player.rs` lines 26-32): push onto `waiting_q` under
the write lock. -/
def add (w : World) (s : Song) : World :=
  { w with player := { w.player with waiting_q := w.player.waiting_q.push s } }

/-- `waiting_list` (lines 34-46): snapshot of the waiting queue, oldest
first. -/
def waiting_list (w : World) : List Song :=
  w.player.waiting_q.items

/-- `played_list` (lines 48-60): snapshot of the played queue, oldest first. -/
def played_list (w : World) : List Song :=
  w.player.played_q.items

/-- `current_song` (lines 62-66): snapshot of the active record. -/
def current_song (w : World) : ActiveSong :=
  w.player.current

/-- `is_playing` (lines 168-175): `current.state == SongState::PLAY`. -/
def is_playing (w : World) : Bool :=
  decide (w.player.current.state = SongState.PLAY)

/-- `use_normal_play` (lines 177-182). -/
def use_normal_play (w : World) : World :=
  { w with player := { w.player with mode := PlaybackMode.NORMAL } }

/-- `use_auto_play` (lines 184-189). -/
def use_auto_play (w : World) : World :=
  { w with player := { w.player with mode := PlaybackMode.AUTO } }

/-- `set_device_maker` (lines 203-213): replace the output factory. -/
def set_device_maker (w : World) (tag : Nat) : World :=
  { w with player := { w.player with gen_out := tag } }

/-- `toggle` (lines 129-143): if a sink exists, flip its backend
paused/playing flag; `PlayerAsset` itself is only read. -/
def toggle (w : World) : World :=
  match w.player.sink with
  | none => w
  | some _ =>
    if w.ctl.paused then { w with ctl := { w.ctl with paused := false } }
    else { w with ctl := { w.ctl with paused := true } }

/-- `stop` (lines 145-155): if a sink exists, signal it to halt; nothing
else is touched. -/
def stop (w : World) : World :=
  match w.player.sink with
  | none => w
  | some _ => { w with ctl := { w.ctl with stopped := true } }

/-- `clear` (lines 158-166): empty both queues under the write lock. -/
def clear (w : World) : World :=
  { w with player := { w.player with
      waiting_q := w.player.waiting_q.clear
      played_q := w.player.played_q.clear } }

/-- `play` lines 78-83: call `gen_out` and store a fresh `Sink` built on its
handle; one backend creation, identified by the installed factory's tag and
the creation serial. -/
def createSink (w : World) : World :=
  { w with
    player := { w.player with sink := some (w.player.gen_out, w.nextSerial) }
    ctl := SinkCtl.fresh
    nextSerial := w.nextSerial + 1 }

/-- `play` line 85: pop one song from `waiting_q` under the write lock. -/
def popStep (w : World) : World × Option Song :=
  match w.player.waiting_q.pop with
  | (q, r) => ({ w with player := { w.player with waiting_q := q } }, r)

/-- `play` lines 92-98: replace `current` with a fresh active record for this
song and mark it `PLAY`, under the write lock. -/
def setActiveStep (w : World) (song : Song) (d : Nat) : World :=
  { w with player := { w.player with
      current := { ActiveSong.fromSong song d with state := SongState.PLAY } } }

/-- `play` lines 99-109: under a read lock, append the source to the sink,
set its backend volume from `PlayerAsset.volume`, and block until the end. -/
def playBlock (w : World) : World :=
  match w.player.sink with
  | none => w
  | some _ => { w with ctl := { w.ctl with volume := w.player.volume } }

/-- `play` lines 110-117, the end-of-play write section: progress becomes the
duration, state becomes `STOP`, the song field is cleared, and the finished
song is appended to `played_q`. -/
def finishStep (w : World) (song : Song) : World :=
  { w with player := { w.player with
      current := { w.player.current with
        progress := w.player.current.duration
        state := SongState.STOP
        song := none }
      played_q := w.player.played_q.push song } }

/-- One loop iteration after a successful pop (`play` lines 90-117).  `inj`
is the concurrent mutation (if any) that lands when the playback read lock
of lines 99-109 is released, before the worker's end-of-play write lock.
Returns `true` in the second component when `resolve` fails, i.e. when the
`File::open`/`Decoder::new` `unwrap` panics and the worker dies with the
state unchanged since the pop. -/
def playOne (resolve : String → Option Nat) (inj : World → World)
    (w : World) (song : Song) : World × Bool :=
  match resolve song.path with
  | none => (w, true)
  | some d =>
    let w1 := setActiveStep w song d
    let w2 := playBlock w1
    let w3 := inj w2
    (finishStep w3 song, false)

/-- The worker loop of `play` (lines 84-125): pop, resolve, play, record,
then re-check `mode` and either continue (`AUTO`) or break (`NORMAL`).
`sched i` is the concurrent mutation injected during iteration `i`'s blocking
playback.  `fuel` bounds the iteration count; any fuel above the waiting
queue's length is exact when `sched` does not add songs.  The returned flag
is `true` when the worker panicked. -/
def sessionLoop (resolve : String → Option Nat) (sched : Nat → World → World) :
    Nat → Nat → World → World × Bool
  | 0, _, w => (w, false)
  | fuel + 1, i, w =>
    match popStep w with
    | (w1, none) => (w1, false)
    | (w1, some song) =>
      match playOne resolve (sched i) w1 song with
      | (w2, true) => (w2, true)
      | (w2, false) =>
        if w2.player.mode = PlaybackMode.AUTO then
          sessionLoop resolve sched fuel (i + 1) w2
        else (w2, false)

/-- No concurrent mutation during any iteration. -/
def noInj : Nat → World → World := fun _ w => w

/-- Outcome of one `play()` call: the resulting state, whether a worker
session actually ran (`false` means the idempotence guard returned the no-op
handle `spawn(|| {})`), and whether the worker panicked. -/
structure PlayOutcome where
  world : World
  ranWorker : Bool
  panicked : Bool
deriving DecidableEq, Repr

/-- `play` (`src/shared_player.rs` lines 68-127): guard on `is_playing`,
create the session's single output channel, then run the worker loop. -/
def play (resolve : String → Option Nat) (sched : Nat → World → World)
    (w : World) : PlayOutcome :=
  if is_playing w then { world := w, ranWorker := false, panicked := false }
  else
    let w1 := createSink w
    let out := sessionLoop resolve sched (w1.player.waiting_q.items.length + 1) 0 w1
    { world := out.1, ranWorker := true, panicked := out.2 }

/-- The public control surface as an operation alphabet, used to state
reachability invariants over every sequence of operations. -/
inductive Op where
  | add (s : Song)
  | play
  | toggle
  | stop
  | clear
  | use_normal_play
  | use_auto_play
  | set_device_maker (tag : Nat)

/-- Interpret one operation (with no concurrent injection inside `play`). -/
def stepOp (resolve : String → Option Nat) (w : World) : Op → World
  | Op.add s => add w s
  | Op.play => (play resolve noInj w).world
  | Op.toggle => toggle w
  | Op.stop => stop w
  | Op.clear => clear w
  | Op.use_normal_play => use_normal_play w
  | Op.use_auto_play => use_auto_play w
  | Op.set_device_maker tag => set_device_maker w tag

/-- Run a sequence of control operations from a state. -/
def runOps (resolve : String → Option Nat) (w : World) (ops : List Op) : World :=
  ops.foldl (stepOp resolve) w

/-- Push a whole list, oldest first. -/
def LimitedQueue.pushAll {α : Type} (q : LimitedQueue α) (l : List α) : LimitedQueue α :=
  l.foldl LimitedQueue.push q

/-- The bounded-queue invariant of the spec: both queues have capacity 1000
and never hold more than 1000 entries. -/
def QInv (w : World) : Prop :=
  w.player.waiting_q.capacity = 1000 ∧ w.player.waiting_q.items.length ≤ 1000 ∧
    w.player.played_q.capacity = 1000 ∧ w.player.played_q.items.length ≤ 1000

/-- A state captured mid-playback: a live sink and an active song in `PLAY`. -/
def playingWorld : World :=
  { World.make with player := { World.make.player with
      sink := some (0, 0)
      current := { ActiveSong.fromSong { name := "A", path := "pa" } 7 with
        state := SongState.PLAY } } }

/-- Concurrent schedule for the mode-switch scenario: `use_normal_play` lands
while the second track (iteration 1) is blocking inside its playback read
section. -/
def modeSwitchSched : Nat → World → World :=
  fun i w => if i = 1 then use_normal_play w else w

/-- The i-th track of the bounded-eviction scenario. -/
def evictSong (i : Nat) : Song :=
  { name := toString i, path := toString i }

end SuperRodio

namespace SuperRodio

/-! ## Queue lemmas -/

theorem LimitedQueue.push_of_fits {α : Type} (q : LimitedQueue α) (a : α)
    (h : q.items.length < q.capacity) : (q.push a).items = q.items ++ [a] := by
  simp [LimitedQueue.push, h]

theorem LimitedQueue.push_of_full {α : Type} (q : LimitedQueue α) (a : α)
    (h : ¬ q.items.length < q.capacity) : (q.push a).items = q.items.tail ++ [a] := by
  simp [LimitedQueue.push, h]

theorem LimitedQueue.capacity_push {α : Type} (q : LimitedQueue α) (a : α) :
    (q.push a).capacity = q.capacity := by
  unfold LimitedQueue.push
  split <;> rfl

theorem LimitedQueue.length_push_le {α : Type} (q : LimitedQueue α) (a : α)
    (hc : 0 < q.capacity) (h : q.items.length ≤ q.capacity) :
    (q.push a).items.length ≤ q.capacity := by
  by_cases h1 : q.items.length < q.capacity
  · rw [LimitedQueue.push, if_pos h1]
    simp only [List.length_append, List.length_singleton, List.length_cons, List.length_nil]
    omega
  · rw [LimitedQueue.push, if_neg h1]
    simp only [List.length_append, List.length_singleton, List.length_cons, List.length_nil, List.length_tail]
    omega

theorem LimitedQueue.pushAll_cons {α : Type} (q : LimitedQueue α) (a : α) (l : List α) :
    q.pushAll (a :: l) = (q.push a).pushAll l := rfl

theorem LimitedQueue.capacity_pushAll {α : Type} (l : List α) :
    ∀ q : LimitedQueue α, (q.pushAll l).capacity = q.capacity := by
  induction l with
  | nil => intro q; rfl
  | cons a t ih =>
    intro q
    rw [LimitedQueue.pushAll_cons, ih, LimitedQueue.capacity_push]

theorem LimitedQueue.pushAll_of_fits {α : Type} (l : List α) :
    ∀ q : LimitedQueue α, q.items.length + l.length ≤ q.capacity →
      (q.pushAll l).items = q.items ++ l := by
  induction l with
  | nil => intro q _; simp [LimitedQueue.pushAll]
  | cons a t ih =>
    intro q h
    rw [LimitedQueue.pushAll_cons]
    have hlt : q.items.length < q.capacity := by
      simp only [List.length_cons] at h
      omega
    have hfit : (q.push a).items.length + t.length ≤ (q.push a).capacity := by
      rw [LimitedQueue.capacity_push, LimitedQueue.push_of_fits q a hlt]
      simp only [List.length_append, List.length_singleton, List.length_cons, List.length_nil] at h ⊢
      omega
    rw [ih _ hfit, LimitedQueue.push_of_fits q a hlt, List.append_assoc]
    rfl

/-! ## Worker-loop preservation -/

theorem sessionLoop_preserve (resolve : String → Option Nat)
    (sched : Nat → World → World) (P : World → Prop)
    (hpop : ∀ w, P w → P (popStep w).1)
    (hone : ∀ i w song, P w → P (playOne resolve (sched i) w song).1) :
    ∀ fuel i w, P w → P (sessionLoop resolve sched fuel i w).1 := by
  intro fuel
  induction fuel with
  | zero => intro i w hw; simpa [sessionLoop] using hw
  | succ n ih =>
    intro i w hw
    have hw1 : P (popStep w).1 := hpop w hw
    rcases hp : popStep w with ⟨w1, r⟩
    rw [hp] at hw1
    cases r with
    | none => simpa [sessionLoop, hp] using hw1
    | some song =>
      have hw2 : P (playOne resolve (sched i) w1 song).1 := hone i w1 song hw1
      rcases hq : playOne resolve (sched i) w1 song with ⟨w2, pan⟩
      rw [hq] at hw2
      cases pan with
      | true => simpa [sessionLoop, hp, hq] using hw2
      | false =>
        by_cases hm : w2.player.mode = PlaybackMode.AUTO
        · simpa [sessionLoop, hp, hq, hm] using ih (i + 1) w2 hw2
        · simpa [sessionLoop, hp, hq, hm] using hw2

end SuperRodio

namespace SuperRodio

/-! ## C1 — what `stop()` does -/

/-- C1 (counterexample): after `add(A); add(B); play(); stop()` on a fresh
player in Normal mode, the played list still reads `[A]` and the waiting list
still reads `[B]`: `stop()` did not clear the queues, contradicting the claim
that both lists are empty afterwards. -/
theorem C1_counterexample :
    played_list (stop (play (fun _ => some 2) noInj
      (add (add World.make { name := "A", path := "pa" })
        { name := "B", path := "pb" })).world) = [{ name := "A", path := "pa" }] ∧
    waiting_list (stop (play (fun _ => some 2) noInj
      (add (add World.make { name := "A", path := "pa" })
        { name := "B", path := "pb" })).world) = [{ name := "B", path := "pb" }] ∧
    ¬ (waiting_list (stop (play (fun _ => some 2) noInj
        (add (add World.make { name := "A", path := "pa" })
          { name := "B", path := "pb" })).world) = [] ∧
       played_list (stop (play (fun _ => some 2) noInj
        (add (add World.make { name := "A", path := "pa" })
          { name := "B", path := "pb" })).world) = []) := by
  refine ⟨by decide, by decide, ?_⟩
  intro h
  exact absurd h.1 (by decide)

/-- C1 (amended): `stop()` signals the existing output channel to halt (the
backend `stopped` flag is raised exactly when a sink exists) and mutates
nothing in `PlayerAsset`: both queues — hence `waiting_list()` and
`played_list()` — are left exactly as they were.  It does not clear them. -/
theorem C1_stop_signals_and_preserves_queues (w : World) :
    (stop w).player = w.player ∧
    waiting_list (stop w) = waiting_list w ∧
    played_list (stop w) = played_list w ∧
    (stop w).ctl.stopped = (w.player.sink.isSome || w.ctl.stopped) := by
  unfold stop
  cases h : w.player.sink <;>
    simp [waiting_list, played_list]

/-! ## C2 — resolution failure aborts the worker after the pop -/

/-- C2 (counterexample): with a track whose resource fails to resolve, the
worker panics, but the waiting queue does not remain as it was before the
failing pop: the track `X` was already popped, so the waiting list shrinks
from `[X]` to `[]`. -/
theorem C2_counterexample :
    (play (fun _ => none) noInj
      (add World.make { name := "X", path := "bad" })).panicked = true ∧
    waiting_list (add World.make { name := "X", path := "bad" }) =
      [{ name := "X", path := "bad" }] ∧
    waiting_list (play (fun _ => none) noInj
      (add World.make { name := "X", path := "bad" })).world = [] := by
  refine ⟨by decide, by decide, by decide⟩

/-- C2 (amended): in any session iteration whose popped track fails to
resolve, the worker aborts at once (no retry, no skip-and-continue); the
played queue and the active record are exactly as they were before the failing
pop, but the failing track has already been removed from the waiting queue
and is not restored: the waiting queue retains exactly the tracks behind it. -/
theorem C2_resolve_failure_aborts (resolve : String → Option Nat)
    (sched : Nat → World → World) (fuel i : Nat) (w : World)
    (song : Song) (rest : List Song)
    (hw : w.player.waiting_q.items = song :: rest)
    (hr : resolve song.path = none) :
    (sessionLoop resolve sched (fuel + 1) i w).2 = true ∧
    ((sessionLoop resolve sched (fuel + 1) i w).1).player.played_q =
      w.player.played_q ∧
    ((sessionLoop resolve sched (fuel + 1) i w).1).player.current =
      w.player.current ∧
    ((sessionLoop resolve sched (fuel + 1) i w).1).player.waiting_q.items =
      rest := by
  have hpop : popStep w =
      ({ w with player := { w.player with
          waiting_q := { w.player.waiting_q with items := rest } } }, some song) := by
    simp [popStep, LimitedQueue.pop, hw]
  simp [sessionLoop, hpop, playOne, hr]

/-- Witness for C2: the failing-resolve session on a concrete one-track
player. -/
theorem C2_resolve_failure_aborts_witness :
    (sessionLoop (fun _ => none) noInj (0 + 1) 0
      (add World.make { name := "X", path := "bad" })).2 = true ∧
    ((sessionLoop (fun _ => none) noInj (0 + 1) 0
      (add World.make { name := "X", path := "bad" })).1).player.played_q =
      (add World.make { name := "X", path := "bad" }).player.played_q ∧
    ((sessionLoop (fun _ => none) noInj (0 + 1) 0
      (add World.make { name := "X", path := "bad" })).1).player.current =
      (add World.make { name := "X", path := "bad" }).player.current ∧
    ((sessionLoop (fun _ => none) noInj (0 + 1) 0
      (add World.make { name := "X", path := "bad" })).1).player.waiting_q.items =
      [] :=
  C2_resolve_failure_aborts (fun _ => none) noInj 0 0
    (add World.make { name := "X", path := "bad" })
    { name := "X", path := "bad" } [] (by decide) rfl

/-! ## C3 — idempotent play -/

/-- C3: calling `play()` while `is_playing()` is true runs no worker session
at all: the call returns the already-complete no-op handle (`ranWorker =
false`), panics nowhere, and leaves the whole state — in particular the
played queue — untouched, so any played-queue growth in a session comes from
the single worker of the `play()` call that started it. -/
theorem C3_play_idempotent (resolve : String → Option Nat)
    (sched : Nat → World → World) (w : World) (h : is_playing w = true) :
    play resolve sched w = { world := w, ranWorker := false, panicked := false } := by
  simp [play, h]

/-- Witness for C3: a captured mid-playback state. -/
theorem C3_play_idempotent_witness :
    play (fun _ => some 7) noInj playingWorld =
      { world := playingWorld, ranWorker := false, panicked := false } :=
  C3_play_idempotent (fun _ => some 7) noInj playingWorld (by decide)

/-! ## C10 — toggle is read-only on PlayerAsset -/

/-- C10: `toggle()` never mutates any field of the player state (it flips only
the backend sink's paused flag), in particular it never writes
`SongState.PAUSE` into the active record; so while a track is in progress,
`is_playing()` still returns `true` and `current_song()` still reports
`PLAY` after a `toggle()`. -/
theorem C10_toggle_read_only (w : World) :
    (toggle w).player = w.player ∧
    (is_playing w = true →
      is_playing (toggle w) = true ∧
      (current_song (toggle w)).state = SongState.PLAY) := by
  have hp : (toggle w).player = w.player := by
    unfold toggle
    cases w.player.sink with
    | none => rfl
    | some s => by_cases hps : w.ctl.paused <;> simp [hps]
  refine ⟨hp, fun h => ?_⟩
  have : is_playing (toggle w) = is_playing w := by
    simp [is_playing, hp]
  rw [this, h]
  refine ⟨rfl, ?_⟩
  have := of_decide_eq_true h
  simpa [current_song, hp] using this

/-- Witness for C10: toggling the captured mid-playback state. -/
theorem C10_toggle_read_only_witness :
    (toggle playingWorld).player = playingWorld.player ∧
    (is_playing (toggle playingWorld) = true ∧
      (current_song (toggle playingWorld)).state = SongState.PLAY) :=
  ⟨(C10_toggle_read_only playingWorld).1,
    (C10_toggle_read_only playingWorld).2 (by decide)⟩

end SuperRodio

namespace SuperRodio

/-! ## Frame lemmas for the worker's critical sections -/

theorem popStep_frame (w : World) :
    (popStep w).1.player.sink = w.player.sink ∧
    (popStep w).1.player.played_q = w.player.played_q ∧
    (popStep w).1.player.current = w.player.current ∧
    (popStep w).1.player.mode = w.player.mode ∧
    (popStep w).1.player.volume = w.player.volume ∧
    (popStep w).1.player.gen_out = w.player.gen_out ∧
    (popStep w).1.nextSerial = w.nextSerial := by
  rcases hq : w.player.waiting_q.pop with ⟨q, r⟩
  simp [popStep, hq]

theorem playBlock_player (w : World) :
    (playBlock w).player = w.player ∧ (playBlock w).nextSerial = w.nextSerial := by
  unfold playBlock
  cases w.player.sink <;> simp

theorem setActiveStep_frame (w : World) (song : Song) (d : Nat) :
    (setActiveStep w song d).player.sink = w.player.sink ∧
    (setActiveStep w song d).player.waiting_q = w.player.waiting_q ∧
    (setActiveStep w song d).player.played_q = w.player.played_q ∧
    (setActiveStep w song d).player.mode = w.player.mode ∧
    (setActiveStep w song d).player.volume = w.player.volume ∧
    (setActiveStep w song d).player.gen_out = w.player.gen_out ∧
    (setActiveStep w song d).nextSerial = w.nextSerial := by
  simp [setActiveStep]

theorem finishStep_frame (w : World) (song : Song) :
    (finishStep w song).player.sink = w.player.sink ∧
    (finishStep w song).player.waiting_q = w.player.waiting_q ∧
    (finishStep w song).player.mode = w.player.mode ∧
    (finishStep w song).player.volume = w.player.volume ∧
    (finishStep w song).player.gen_out = w.player.gen_out ∧
    (finishStep w song).nextSerial = w.nextSerial := by
  simp [finishStep]

theorem playOne_noInj_frame (resolve : String → Option Nat) (i : Nat)
    (w : World) (song : Song) :
    (playOne resolve (noInj i) w song).1.player.sink = w.player.sink ∧
    (playOne resolve (noInj i) w song).1.player.waiting_q = w.player.waiting_q ∧
    (playOne resolve (noInj i) w song).1.player.gen_out = w.player.gen_out ∧
    (playOne resolve (noInj i) w song).1.nextSerial = w.nextSerial := by
  cases hr : resolve song.path with
  | none => simp [playOne, hr]
  | some d =>
    have hb := playBlock_player (setActiveStep w song d)
    simp only [playOne, hr, noInj]
    rcases setActiveStep_frame w song d with ⟨h1, h2, _, _, _, h6, h7⟩
    rcases finishStep_frame (playBlock (setActiveStep w song d)) song with
      ⟨g1, g2, _, _, g6, g7⟩
    exact ⟨by rw [g1, hb.1, h1], by rw [g2, hb.1, h2],
      by rw [g6, hb.1, h6], by rw [g7, hb.2, h7]⟩

/-! ## C9 — play on an empty queue changes nothing observable -/

/-- C9: a `play()` call on a non-playing player with an empty waiting queue is
an immediate no-op session: the waiting queue, played queue, mode, volume and
the active record are all exactly as before the call (the active record keeps
its last value), whatever concurrent schedule is supplied. -/
theorem C9_empty_queue_play_is_noop (resolve : String → Option Nat)
    (sched : Nat → World → World) (w : World)
    (hnp : is_playing w = false) (he : w.player.waiting_q.items = []) :
    (play resolve sched w).world.player.waiting_q = w.player.waiting_q ∧
    (play resolve sched w).world.player.played_q = w.player.played_q ∧
    (play resolve sched w).world.player.mode = w.player.mode ∧
    (play resolve sched w).world.player.volume = w.player.volume ∧
    (play resolve sched w).world.player.current = w.player.current := by
  have h1 : (createSink w).player.waiting_q = w.player.waiting_q := by
    simp [createSink]
  simp [play, hnp, sessionLoop, popStep, LimitedQueue.pop, h1, he, createSink]

/-- Witness for C9: a fresh player. -/
theorem C9_empty_queue_play_is_noop_witness :
    (play (fun _ => some 7) noInj World.make).world.player.waiting_q =
      World.make.player.waiting_q ∧
    (play (fun _ => some 7) noInj World.make).world.player.played_q =
      World.make.player.played_q ∧
    (play (fun _ => some 7) noInj World.make).world.player.mode =
      World.make.player.mode ∧
    (play (fun _ => some 7) noInj World.make).world.player.volume =
      World.make.player.volume ∧
    (play (fun _ => some 7) noInj World.make).world.player.current =
      World.make.player.current :=
  C9_empty_queue_play_is_noop (fun _ => some 7) noInj World.make rfl rfl

/-! ## C7 — one output channel per play invocation -/

theorem play_creates_sink_once (resolve : String → Option Nat) (w : World)
    (h : is_playing w = false) :
    (play resolve noInj w).world.player.sink =
      some (w.player.gen_out, w.nextSerial) ∧
    (play resolve noInj w).world.nextSerial = w.nextSerial + 1 ∧
    (play resolve noInj w).ranWorker = true := by
  have hP := sessionLoop_preserve resolve noInj
    (fun x => x.player.sink = some (w.player.gen_out, w.nextSerial) ∧
      x.nextSerial = w.nextSerial + 1)
    (fun x hx => by
      rcases popStep_frame x with ⟨p1, _, _, _, _, _, p7⟩
      exact ⟨by rw [p1, hx.1], by rw [p7, hx.2]⟩)
    (fun i x song hx => by
      rcases playOne_noInj_frame resolve i x song with ⟨p1, _, _, p4⟩
      exact ⟨by rw [p1, hx.1], by rw [p4, hx.2]⟩)
    ((createSink w).player.waiting_q.items.length + 1) 0 (createSink w)
    (by simp [createSink])
  simp only [play, h, Bool.false_eq_true, if_false]
  exact ⟨hP.1, hP.2, trivial⟩

/-- C7: on a non-playing player, a `play()` invocation creates the output
channel exactly once — the backend creation counter rises by exactly 1, and
the stored handle is the one built from the currently installed factory and
that single creation — the worker loop never replaces it, and it is still
populated (stale) after the worker ends; a subsequent `play()` then builds a
distinct fresh channel in its place. -/
theorem C7_one_channel_per_session (resolve : String → Option Nat) (w : World)
    (h : is_playing w = false) :
    (play resolve noInj w).world.player.sink =
      some (w.player.gen_out, w.nextSerial) ∧
    (play resolve noInj w).world.nextSerial = w.nextSerial + 1 ∧
    (play resolve noInj w).ranWorker = true ∧
    (is_playing (play resolve noInj w).world = false →
      (play resolve noInj (play resolve noInj w).world).world.player.sink =
        some ((play resolve noInj w).world.player.gen_out, w.nextSerial + 1) ∧
      ((play resolve noInj w).world.player.gen_out, w.nextSerial + 1) ≠
        (w.player.gen_out, w.nextSerial)) := by
  rcases play_creates_sink_once resolve w h with ⟨h1, h2, h3⟩
  refine ⟨h1, h2, h3, fun h4 => ?_⟩
  rcases play_creates_sink_once resolve _ h4 with ⟨g1, _, _⟩
  rw [h2] at g1
  refine ⟨g1, ?_⟩
  intro hc
  have := congrArg Prod.snd hc
  simp at this

/-- Witness for C7: a fresh player with one resolvable track. -/
theorem C7_one_channel_per_session_witness :
    (play (fun _ => some 7) noInj (add World.make { name := "A", path := "pa" })).world.player.sink =
      some ((add World.make { name := "A", path := "pa" }).player.gen_out,
        (add World.make { name := "A", path := "pa" }).nextSerial) ∧
    (play (fun _ => some 7) noInj (add World.make { name := "A", path := "pa" })).world.nextSerial =
      (add World.make { name := "A", path := "pa" }).nextSerial + 1 ∧
    (play (fun _ => some 7) noInj (add World.make { name := "A", path := "pa" })).ranWorker = true ∧
    (is_playing (play (fun _ => some 7) noInj
        (add World.make { name := "A", path := "pa" })).world = false →
      (play (fun _ => some 7) noInj (play (fun _ => some 7) noInj
        (add World.make { name := "A", path := "pa" })).world).world.player.sink =
        some ((play (fun _ => some 7) noInj
          (add World.make { name := "A", path := "pa" })).world.player.gen_out,
          (add World.make { name := "A", path := "pa" }).nextSerial + 1) ∧
      ((play (fun _ => some 7) noInj
          (add World.make { name := "A", path := "pa" })).world.player.gen_out,
        (add World.make { name := "A", path := "pa" }).nextSerial + 1) ≠
        ((add World.make { name := "A", path := "pa" }).player.gen_out,
          (add World.make { name := "A", path := "pa" }).nextSerial)) :=
  C7_one_channel_per_session (fun _ => some 7)
    (add World.make { name := "A", path := "pa" }) (by decide)

end SuperRodio

namespace SuperRodio

/-! ## C6 — end-of-play postcondition and the Normal-mode snapshot -/

/-- C6: (general) every end-of-play step leaves the active record with
`state = STOP`, `progress = duration`, no loaded track, and appends the
finished track to the played queue; (scenario) a completed Normal-mode
single-track session on a fresh player reports exactly
`{track = none, state = STOP, progress = duration = d}` and history `[a]`. -/
theorem C6_end_of_play_snapshot (w : World) (song : Song)
    (resolve : String → Option Nat) (a : Song) (d : Nat)
    (ha : resolve a.path = some d) :
    ((finishStep w song).player.current.state = SongState.STOP ∧
     (finishStep w song).player.current.progress =
       (finishStep w song).player.current.duration ∧
     (finishStep w song).player.current.song = none ∧
     (finishStep w song).player.played_q = w.player.played_q.push song) ∧
    (current_song (play resolve noInj (add World.make a)).world =
       { song := none, state := SongState.STOP, progress := d, duration := d } ∧
     played_list (play resolve noInj (add World.make a)).world = [a] ∧
     (play resolve noInj (add World.make a)).panicked = false) := by
  constructor
  · simp [finishStep]
  · simp +decide [play, is_playing, add, World.make, PlayerAsset.make,
      ActiveSong.default, LimitedQueue.withCapacity, LimitedQueue.push,
      createSink, SinkCtl.fresh, sessionLoop, popStep, LimitedQueue.pop,
      playOne, ha, noInj, setActiveStep, playBlock, finishStep,
      ActiveSong.fromSong, current_song, played_list]

/-- Witness for C6. -/
theorem C6_end_of_play_snapshot_witness :
    ((finishStep World.make { name := "A", path := "pa" }).player.current.state =
        SongState.STOP ∧
     (finishStep World.make { name := "A", path := "pa" }).player.current.progress =
       (finishStep World.make { name := "A", path := "pa" }).player.current.duration ∧
     (finishStep World.make { name := "A", path := "pa" }).player.current.song = none ∧
     (finishStep World.make { name := "A", path := "pa" }).player.played_q =
       World.make.player.played_q.push { name := "A", path := "pa" }) ∧
    (current_song (play (fun _ => some 7) noInj
        (add World.make { name := "A", path := "pa" })).world =
       { song := none, state := SongState.STOP, progress := 7, duration := 7 } ∧
     played_list (play (fun _ => some 7) noInj
        (add World.make { name := "A", path := "pa" })).world =
       [{ name := "A", path := "pa" }] ∧
     (play (fun _ => some 7) noInj
        (add World.make { name := "A", path := "pa" })).panicked = false) :=
  C6_end_of_play_snapshot World.make { name := "A", path := "pa" }
    (fun _ => some 7) { name := "A", path := "pa" } 7 rfl

/-! ## C4 — strict FIFO in a full auto-mode session -/

/-- C4: adding tracks `a`, `b`, `c` in that order to a fresh player, selecting
auto mode and running one full `play()` session to completion leaves the
played history reading `[a, b, c]` — append order equals play-completion
order — and the waiting queue empty. -/
theorem C4_auto_session_fifo (resolve : String → Option Nat)
    (a b c : Song) (da db dc : Nat)
    (ha : resolve a.path = some da) (hb : resolve b.path = some db)
    (hc : resolve c.path = some dc) :
    played_list (play resolve noInj
      (use_auto_play (add (add (add World.make a) b) c))).world = [a, b, c] ∧
    waiting_list (play resolve noInj
      (use_auto_play (add (add (add World.make a) b) c))).world = [] ∧
    (play resolve noInj
      (use_auto_play (add (add (add World.make a) b) c))).panicked = false := by
  simp +decide [play, is_playing, add, use_auto_play, World.make,
    PlayerAsset.make, ActiveSong.default, LimitedQueue.withCapacity,
    LimitedQueue.push, createSink, SinkCtl.fresh, sessionLoop, popStep,
    LimitedQueue.pop, playOne, ha, hb, hc, noInj, setActiveStep, playBlock,
    finishStep, ActiveSong.fromSong, waiting_list, played_list]

/-- Witness for C4. -/
theorem C4_auto_session_fifo_witness :
    played_list (play (fun _ => some 7) noInj
      (use_auto_play (add (add (add World.make { name := "A", path := "pa" })
        { name := "B", path := "pb" }) { name := "C", path := "pc" }))).world =
      [{ name := "A", path := "pa" }, { name := "B", path := "pb" },
        { name := "C", path := "pc" }] ∧
    waiting_list (play (fun _ => some 7) noInj
      (use_auto_play (add (add (add World.make { name := "A", path := "pa" })
        { name := "B", path := "pb" }) { name := "C", path := "pc" }))).world = [] ∧
    (play (fun _ => some 7) noInj
      (use_auto_play (add (add (add World.make { name := "A", path := "pa" })
        { name := "B", path := "pb" }) { name := "C", path := "pc" }))).panicked =
      false :=
  C4_auto_session_fifo (fun _ => some 7) { name := "A", path := "pa" }
    { name := "B", path := "pb" } { name := "C", path := "pc" } 7 7 7 rfl rfl rfl

/-! ## C8 — a mode switch mid-session is never retroactive -/

/-- C8: (general) a `use_normal_play` landing while a track plays never aborts
it: the iteration still completes and appends that track to the played queue;
(scenario) with `[a, b, c]` queued in auto mode and the switch landing during
track `b`'s playback, `b` still finishes — the session then exits with the
active record showing the completed `b` (`STOP`, no track) — the played
history reads `[a, b]`, and `c` alone remains queued. -/
theorem C8_mode_switch_not_retroactive (resolve : String → Option Nat)
    (a b c : Song) (da db dc : Nat)
    (ha : resolve a.path = some da) (hb : resolve b.path = some db)
    (_hc : resolve c.path = some dc) :
    (∀ (w : World) (s : Song) (d : Nat), resolve s.path = some d →
      (playOne resolve use_normal_play w s).2 = false ∧
      (playOne resolve use_normal_play w s).1.player.played_q =
        w.player.played_q.push s) ∧
    (played_list (play resolve modeSwitchSched
      (use_auto_play (add (add (add World.make a) b) c))).world = [a, b] ∧
     waiting_list (play resolve modeSwitchSched
      (use_auto_play (add (add (add World.make a) b) c))).world = [c] ∧
     (current_song (play resolve modeSwitchSched
      (use_auto_play (add (add (add World.make a) b) c))).world).state =
        SongState.STOP ∧
     (current_song (play resolve modeSwitchSched
      (use_auto_play (add (add (add World.make a) b) c))).world).song = none ∧
     (play resolve modeSwitchSched
      (use_auto_play (add (add (add World.make a) b) c))).panicked = false) := by
  constructor
  · intro w s d hd
    simp [playOne, hd, use_normal_play, setActiveStep, playBlock, finishStep]
    split <;> rfl
  · simp +decide [play, is_playing, add, use_auto_play, World.make,
      PlayerAsset.make, ActiveSong.default, LimitedQueue.withCapacity,
      LimitedQueue.push, createSink, SinkCtl.fresh, sessionLoop, popStep,
      LimitedQueue.pop, playOne, ha, hb, modeSwitchSched, use_normal_play,
      setActiveStep, playBlock, finishStep, ActiveSong.fromSong, waiting_list,
      played_list, current_song]

/-- Witness for C8. -/
theorem C8_mode_switch_not_retroactive_witness :
    (∀ (w : World) (s : Song) (d : Nat), (fun _ => some 7 : String → Option Nat) s.path = some d →
      (playOne (fun _ => some 7) use_normal_play w s).2 = false ∧
      (playOne (fun _ => some 7) use_normal_play w s).1.player.played_q =
        w.player.played_q.push s) ∧
    (played_list (play (fun _ => some 7) modeSwitchSched
      (use_auto_play (add (add (add World.make { name := "A", path := "pa" })
        { name := "B", path := "pb" }) { name := "C", path := "pc" }))).world =
      [{ name := "A", path := "pa" }, { name := "B", path := "pb" }] ∧
     waiting_list (play (fun _ => some 7) modeSwitchSched
      (use_auto_play (add (add (add World.make { name := "A", path := "pa" })
        { name := "B", path := "pb" }) { name := "C", path := "pc" }))).world =
      [{ name := "C", path := "pc" }] ∧
     (current_song (play (fun _ => some 7) modeSwitchSched
      (use_auto_play (add (add (add World.make { name := "A", path := "pa" })
        { name := "B", path := "pb" }) { name := "C", path := "pc" }))).world).state =
        SongState.STOP ∧
     (current_song (play (fun _ => some 7) modeSwitchSched
      (use_auto_play (add (add (add World.make { name := "A", path := "pa" })
        { name := "B", path := "pb" }) { name := "C", path := "pc" }))).world).song =
        none ∧
     (play (fun _ => some 7) modeSwitchSched
      (use_auto_play (add (add (add World.make { name := "A", path := "pa" })
        { name := "B", path := "pb" }) { name := "C", path := "pc" }))).panicked =
      false) :=
  C8_mode_switch_not_retroactive (fun _ => some 7) { name := "A", path := "pa" }
    { name := "B", path := "pb" } { name := "C", path := "pc" } 7 7 7 rfl rfl rfl

end SuperRodio

namespace SuperRodio

/-! ## C5 — bounded queues with FIFO eviction -/

theorem pop_shrinks {α : Type} (q : LimitedQueue α) :
    (q.pop).1.items.length ≤ q.items.length ∧ (q.pop).1.capacity = q.capacity := by
  cases h : q.items <;> simp [LimitedQueue.pop, h]

theorem QInv_player_eq {v w : World} (hp : v.player = w.player) (h : QInv w) :
    QInv v := by
  unfold QInv at *
  rw [hp]
  exact h

theorem QInv_popStep (w : World) (h : QInv w) : QInv (popStep w).1 := by
  rcases h with ⟨h1, h2, h3, h4⟩
  have hs := pop_shrinks w.player.waiting_q
  rcases hq : w.player.waiting_q.pop with ⟨q, r⟩
  rw [hq] at hs
  simp only [popStep, hq]
  exact ⟨hs.2.trans h1, le_trans (le_trans hs.1 (le_of_eq rfl)) h2, h3, h4⟩

theorem QInv_push_played (w : World) (song : Song) (h : QInv w) :
    QInv (finishStep w song) := by
  rcases h with ⟨h1, h2, h3, h4⟩
  refine ⟨h1, h2, ?_, ?_⟩
  · show (w.player.played_q.push song).capacity = 1000
    rw [LimitedQueue.capacity_push, h3]
  · show (w.player.played_q.push song).items.length ≤ 1000
    have hc : 0 < w.player.played_q.capacity := by rw [h3]; norm_num
    have hle : w.player.played_q.items.length ≤ w.player.played_q.capacity := by
      rw [h3]; exact h4
    have := LimitedQueue.length_push_le w.player.played_q song hc hle
    rwa [h3] at this

theorem QInv_of_queues_eq {v w : World}
    (hw : v.player.waiting_q = w.player.waiting_q)
    (hp : v.player.played_q = w.player.played_q) (h : QInv w) : QInv v := by
  unfold QInv at *
  rw [hw, hp]
  exact h

theorem toggle_player (w : World) : (toggle w).player = w.player := by
  unfold toggle
  cases w.player.sink with
  | none => rfl
  | some s => by_cases hps : w.ctl.paused <;> simp [hps]

theorem stop_player (w : World) : (stop w).player = w.player := by
  unfold stop
  cases w.player.sink <;> rfl

theorem QInv_playOne (resolve : String → Option Nat) (inj : World → World)
    (hinj : ∀ x, QInv x → QInv (inj x)) (w : World) (song : Song) (h : QInv w) :
    QInv (playOne resolve inj w song).1 := by
  cases hr : resolve song.path with
  | none => simpa [playOne, hr] using h
  | some d =>
    have h1 : QInv (setActiveStep w song d) := QInv_of_queues_eq rfl rfl h
    have h2 : QInv (playBlock (setActiveStep w song d)) := by
      have hpl := (playBlock_player (setActiveStep w song d)).1
      exact QInv_of_queues_eq (by rw [hpl]) (by rw [hpl]) h1
    have h3 := hinj _ h2
    have h4 := QInv_push_played (inj (playBlock (setActiveStep w song d))) song h3
    simpa [playOne, hr] using h4

theorem stepOp_QInv (resolve : String → Option Nat) (w : World) (op : Op)
    (h : QInv w) : QInv (stepOp resolve w op) := by
  cases op with
  | add s =>
    rcases h with ⟨h1, h2, h3, h4⟩
    refine ⟨?_, ?_, h3, h4⟩
    · show (w.player.waiting_q.push s).capacity = 1000
      rw [LimitedQueue.capacity_push, h1]
    · show (w.player.waiting_q.push s).items.length ≤ 1000
      have hc : 0 < w.player.waiting_q.capacity := by rw [h1]; norm_num
      have hle : w.player.waiting_q.items.length ≤ w.player.waiting_q.capacity := by
        rw [h1]; exact h2
      have := LimitedQueue.length_push_le w.player.waiting_q s hc hle
      rwa [h1] at this
  | play =>
    cases hb : is_playing w with
    | true => simpa [stepOp, play, hb] using h
    | false =>
      have hcs : QInv (createSink w) := QInv_of_queues_eq rfl rfl h
      have hloop := sessionLoop_preserve resolve noInj QInv QInv_popStep
        (fun i x song hx => QInv_playOne resolve (noInj i) (fun y hy => hy) x song hx)
        ((createSink w).player.waiting_q.items.length + 1) 0 (createSink w) hcs
      simpa [stepOp, play, hb] using hloop
  | toggle => exact QInv_player_eq (toggle_player w) h
  | stop => exact QInv_player_eq (stop_player w) h
  | clear =>
    rcases h with ⟨h1, _, h3, _⟩
    refine ⟨?_, ?_, ?_, ?_⟩
    · show (w.player.waiting_q.clear).capacity = 1000
      simpa [LimitedQueue.clear] using h1
    · show (w.player.waiting_q.clear).items.length ≤ 1000
      simp [LimitedQueue.clear]
    · show (w.player.played_q.clear).capacity = 1000
      simpa [LimitedQueue.clear] using h3
    · show (w.player.played_q.clear).items.length ≤ 1000
      simp [LimitedQueue.clear]
  | use_normal_play => exact QInv_of_queues_eq rfl rfl h
  | use_auto_play => exact QInv_of_queues_eq rfl rfl h
  | set_device_maker tag => exact QInv_of_queues_eq rfl rfl h

theorem runOps_QInv (resolve : String → Option Nat) (ops : List Op) :
    ∀ w, QInv w → QInv (runOps resolve w ops) := by
  induction ops with
  | nil => intro w h; exact h
  | cons op t ih =>
    intro w h
    exact ih (stepOp resolve w op) (stepOp_QInv resolve w op h)

theorem runOps_add_map (resolve : String → Option Nat) (l : List Song) :
    ∀ w : World, runOps resolve w (l.map Op.add) = l.foldl add w := by
  induction l with
  | nil => intro w; rfl
  | cons a t ih => intro w; exact ih (add w a)

theorem foldl_add_waiting (l : List Song) :
    ∀ w : World, (l.foldl add w).player.waiting_q = w.player.waiting_q.pushAll l := by
  induction l with
  | nil => intro w; rfl
  | cons a t ih =>
    intro w
    have := ih (add w a)
    simpa [LimitedQueue.pushAll_cons, add, List.foldl_cons] using this

theorem LimitedQueue.pushAll_append {α : Type} (l1 l2 : List α) :
    ∀ q : LimitedQueue α, q.pushAll (l1 ++ l2) = (q.pushAll l1).pushAll l2 := by
  induction l1 with
  | nil => intro q; rfl
  | cons a t ih => intro q; exact ih (q.push a)

theorem pushAll_overflow_one {α : Type} (q : LimitedQueue α) (l : List α) (e : α)
    (hq : q.items = []) (hlen : l.length = q.capacity) :
    (q.pushAll (l ++ [e])).items = l.tail ++ [e] := by
  have hfits : q.items.length + l.length ≤ q.capacity := by
    rw [hq, hlen]
    simp
  have hbase : (q.pushAll l).items = l := by
    rw [LimitedQueue.pushAll_of_fits l q hfits, hq, List.nil_append]
  have hcap : (q.pushAll l).capacity = q.capacity := LimitedQueue.capacity_pushAll l q
  have happ : q.pushAll (l ++ [e]) = (q.pushAll l).push e := by
    rw [LimitedQueue.pushAll_append l [e] q]
    rfl
  have hfull : ¬ (q.pushAll l).items.length < (q.pushAll l).capacity := by
    rw [hbase, hcap, hlen]
    simp
  rw [happ, LimitedQueue.push_of_full _ e hfull, hbase]

theorem evict_1001 :
    (World.make.player.waiting_q.pushAll ((List.range 1001).map evictSong)).items =
      ((List.range 1001).map evictSong).tail ∧
    ((World.make.player.waiting_q.pushAll
      ((List.range 1001).map evictSong)).items).length = 1000 := by
  have hsplit : (List.range 1001).map evictSong =
      ((List.range 1000).map evictSong) ++ [evictSong 1000] := by
    have h1001 : (1001 : Nat) = 1000 + 1 := rfl
    rw [h1001, List.range_succ, List.map_append]
    rfl
  have hlen : ((List.range 1000).map evictSong).length =
      World.make.player.waiting_q.capacity := by
    simp [World.make, PlayerAsset.make, LimitedQueue.withCapacity]
  have hne : (List.range 1000).map evictSong ≠ [] := by
    intro h0
    have hct := congrArg List.length h0
    simp at hct
  have hmain := pushAll_overflow_one World.make.player.waiting_q
    ((List.range 1000).map evictSong) (evictSong 1000) rfl hlen
  constructor
  · rw [hsplit, hmain, List.tail_append_singleton_of_ne_nil hne]
  · rw [hsplit, hmain]
    have h10 : ((List.range 1000).map evictSong).length = 1000 := by simp
    simp only [List.length_append, List.length_tail, List.length_cons,
      List.length_nil, h10]

/-- C5: over every sequence of control operations from a fresh player, both
queues keep capacity 1000 and never hold more than 1000 entries (`add` is
total: eviction, not failure); concretely, adding 1001 tracks to a fresh
player leaves the waiting queue holding exactly 1000 entries, namely all but
the oldest (the head of the added sequence is evicted). -/
theorem C5_bounded_queues_with_eviction (resolve : String → Option Nat)
    (ops : List Op) :
    QInv (runOps resolve World.make ops) ∧
    (runOps resolve World.make
      ((List.range 1001).map (fun i => Op.add (evictSong i)))).player.waiting_q.items =
      ((List.range 1001).map evictSong).tail ∧
    ((runOps resolve World.make
      ((List.range 1001).map (fun i => Op.add (evictSong i)))).player.waiting_q.items).length =
      1000 := by
  have hQ0 : QInv World.make := by
    refine ⟨rfl, ?_, rfl, ?_⟩ <;>
      simp [World.make, PlayerAsset.make, LimitedQueue.withCapacity]
  have hmm : (List.range 1001).map (fun i => Op.add (evictSong i)) =
      ((List.range 1001).map evictSong).map Op.add := by
    rw [List.map_map]
    rfl
  refine ⟨runOps_QInv resolve ops World.make hQ0, ?_, ?_⟩
  · rw [hmm, runOps_add_map resolve ((List.range 1001).map evictSong) World.make,
      foldl_add_waiting ((List.range 1001).map evictSong) World.make]
    exact evict_1001.1
  · rw [hmm, runOps_add_map resolve ((List.range 1001).map evictSong) World.make,
      foldl_add_waiting ((List.range 1001).map evictSong) World.make]
    exact evict_1001.2

end SuperRodio
